import Mathlib

set_option maxRecDepth 16384

/-!
Verification of `src/components/AISuggestionEngine.ts` from the
Homeopathic_Remedy_List repository.

The file embeds the single exported function `getAiSuggestions` together
with the module-level initialization of the service handle.  External
collaborators (the `@google/genai` SDK, the JavaScript builtin
`JSON.parse`, the network) are modelled explicitly: the network round
trip is an input to the embedded function (`NetResult`), and
`JSON.parse` is modelled by an executable JSON parser over a `Json`
value type.  JavaScript exceptions are modelled by the `JsOutcome`
return type, and the requests issued to the SDK are collected in a list
so that call counts and request contents are observable.
-/

/-- JSON values as produced by the JavaScript builtin `JSON.parse`.
Numbers keep their raw lexeme: the source code never inspects a numeric
value, it only asks whether `typeof abbr` is `"string"`. -/
inductive Json where
  | null : Json
  | bool (b : Bool) : Json
  | num (raw : String) : Json
  | str (s : String) : Json
  | arr (elems : List Json) : Json
  | obj (fields : List (String × Json)) : Json
deriving Repr

/-- JSON insignificant whitespace. -/
def isJsonWs (c : Char) : Bool :=
  c = ' ' || c = '\t' || c = '\n' || c = '\r'

/-- Drop leading JSON whitespace. -/
def skipWs : List Char → List Char
  | [] => []
  | c :: cs => if isJsonWs c then skipWs cs else c :: cs

/-- Value of a hexadecimal digit. -/
def hexDigitVal (c : Char) : Option Nat :=
  if '0' ≤ c ∧ c ≤ '9' then some (c.toNat - ('0').toNat)
  else if 'a' ≤ c ∧ c ≤ 'f' then some (c.toNat - ('a').toNat + 10)
  else if 'A' ≤ c ∧ c ≤ 'F' then some (c.toNat - ('A').toNat + 10)
  else none

/-- Four hexadecimal digits, as used by the `\uXXXX` string escape. -/
def parseHex4 : List Char → Option (Nat × List Char)
  | a :: b :: c :: d :: rest =>
    match hexDigitVal a, hexDigitVal b, hexDigitVal c, hexDigitVal d with
    | some va, some vb, some vc, some vd =>
      some ((((va * 16 + vb) * 16 + vc) * 16 + vd), rest)
    | _, _, _, _ => none
  | _ => none

/-- Body of a JSON string literal, after the opening quote.  Models the
string grammar accepted by `JSON.parse` (escapes, no raw control
characters); surrogate-pair recombination of the JavaScript builtin is
not modelled, which no claim depends on. -/
def parseStringRest : Nat → String → List Char → Option (String × List Char)
  | 0, _, _ => none
  | _ + 1, _, [] => none
  | fuel + 1, acc, c :: rest =>
    if c = '"' then some (acc, rest)
    else if c = '\\' then
      match rest with
      | [] => none
      | e :: rest2 =>
        if e = '"' then parseStringRest fuel (acc.push '"') rest2
        else if e = '\\' then parseStringRest fuel (acc.push '\\') rest2
        else if e = '/' then parseStringRest fuel (acc.push '/') rest2
        else if e = 'b' then parseStringRest fuel (acc.push (Char.ofNat 8)) rest2
        else if e = 'f' then parseStringRest fuel (acc.push (Char.ofNat 12)) rest2
        else if e = 'n' then parseStringRest fuel (acc.push '\n') rest2
        else if e = 'r' then parseStringRest fuel (acc.push '\r') rest2
        else if e = 't' then parseStringRest fuel (acc.push '\t') rest2
        else if e = 'u' then
          match parseHex4 rest2 with
          | some (n, rest3) => parseStringRest fuel (acc.push (Char.ofNat n)) rest3
          | none => none
        else none
    else if c.toNat < 32 then none
    else parseStringRest fuel (acc.push c) rest

/-- Integer part of a JSON number: `0` or a nonzero digit followed by
digits. -/
def parseIntPart : List Char → Option (List Char × List Char)
  | [] => none
  | c :: rest =>
    if c = '0' then some ([c], rest)
    else if c.isDigit then
      let (ds, r) := rest.span (fun d => d.isDigit)
      some (c :: ds, r)
    else none

/-- Optional fraction part `.digits`; on no match consumes nothing. -/
def parseFracPart (cs : List Char) : List Char × List Char :=
  match cs with
  | '.' :: rest =>
    let (ds, r) := rest.span (fun d => d.isDigit)
    if ds.isEmpty then ([], cs) else ('.' :: ds, r)
  | _ => ([], cs)

/-- Optional exponent part `[eE][+-]?digits`; on no match consumes
nothing. -/
def parseExpPart (cs : List Char) : List Char × List Char :=
  match cs with
  | e :: rest =>
    if e = 'e' || e = 'E' then
      let (sgn, r1) :=
        match rest with
        | c :: r => if c = '+' || c = '-' then ([c], r) else (([] : List Char), rest)
        | [] => ([], rest)
      let (ds, r2) := r1.span (fun d => d.isDigit)
      if ds.isEmpty then ([], cs) else (e :: (sgn ++ ds), r2)
    else ([], cs)
  | [] => ([], cs)

/-- A JSON number token, returned as its raw lexeme. -/
def parseNumber (cs : List Char) : Option (String × List Char) :=
  let (sgn, cs1) :=
    match cs with
    | '-' :: r => ((['-'] : List Char), r)
    | _ => ([], cs)
  match parseIntPart cs1 with
  | none => none
  | some (ip, r1) =>
    let (fp, r2) := parseFracPart r1
    let (ep, r3) := parseExpPart r2
    some (String.mk (sgn ++ ip ++ fp ++ ep), r3)

/-- Expect the given literal characters. -/
def stripLit : List Char → List Char → Option (List Char)
  | [], cs => some cs
  | p :: ps, c :: cs => if c = p then stripLit ps cs else none
  | _ :: _, [] => none

mutual

/-- A JSON value (leading whitespace allowed), recursive-descent with
fuel. -/
def parseValue : Nat → List Char → Option (Json × List Char)
  | 0, _ => none
  | fuel + 1, cs =>
    match skipWs cs with
    | [] => none
    | 'n' :: rest =>
      match stripLit ['u', 'l', 'l'] rest with
      | some r => some (Json.null, r)
      | none => none
    | 't' :: rest =>
      match stripLit ['r', 'u', 'e'] rest with
      | some r => some (Json.bool true, r)
      | none => none
    | 'f' :: rest =>
      match stripLit ['a', 'l', 's', 'e'] rest with
      | some r => some (Json.bool false, r)
      | none => none
    | '"' :: rest =>
      match parseStringRest (rest.length + 1) "" rest with
      | some (s, r) => some (Json.str s, r)
      | none => none
    | '[' :: rest =>
      match skipWs rest with
      | ']' :: r => some (Json.arr [], r)
      | r => parseElements fuel r
    | '{' :: rest =>
      match skipWs rest with
      | '}' :: r => some (Json.obj [], r)
      | r => parseMembers fuel r
    | c :: rest =>
      if c = '-' || c.isDigit then
        match parseNumber (c :: rest) with
        | some (s, r) => some (Json.num s, r)
        | none => none
      else none

/-- One or more array elements followed by `]`. -/
def parseElements : Nat → List Char → Option (Json × List Char)
  | 0, _ => none
  | fuel + 1, cs =>
    match parseValue fuel cs with
    | none => none
    | some (v, r) =>
      match skipWs r with
      | ',' :: r2 =>
        match parseElements fuel r2 with
        | some (Json.arr vs, r3) => some (Json.arr (v :: vs), r3)
        | _ => none
      | ']' :: r2 => some (Json.arr [v], r2)
      | _ => none

/-- One or more object members followed by `}`. -/
def parseMembers : Nat → List Char → Option (Json × List Char)
  | 0, _ => none
  | fuel + 1, cs =>
    match skipWs cs with
    | '"' :: rest =>
      match parseStringRest (rest.length + 1) "" rest with
      | some (k, r) =>
        match skipWs r with
        | ':' :: r2 =>
          match parseValue fuel r2 with
          | some (v, r3) =>
            match skipWs r3 with
            | ',' :: r4 =>
              match parseMembers fuel r4 with
              | some (Json.obj ms, r5) => some (Json.obj ((k, v) :: ms), r5)
              | _ => none
            | '}' :: r4 => some (Json.obj [(k, v)], r4)
            | _ => none
          | none => none
        | _ => none
      | none => none
    | _ => none

end

/-- Model of the JavaScript builtin `JSON.parse`: `none` models a thrown
`SyntaxError`, `some v` a successful parse.  The fuel `2 * length + 2`
exceeds the recursion depth any input of that length can force. -/
def jsonParse (s : String) : Option Json :=
  match parseValue (2 * s.length + 2) s.data with
  | some (v, rest) => if (skipWs rest).isEmpty then some v else none
  | none => none

/-- Whitespace stripped by the JavaScript builtin
`String.prototype.trim` (WhiteSpace and LineTerminator code points). -/
def isJsWs (c : Char) : Bool :=
  c = ' ' || c = '\t' || c = '\n' || c = '\r' ||
  c.toNat = 0xB || c.toNat = 0xC || c.toNat = 0xA0 || c.toNat = 0xFEFF ||
  c.toNat = 0x2028 || c.toNat = 0x2029 ||
  (0x2000 ≤ c.toNat && c.toNat ≤ 0x200A) ||
  c.toNat = 0x1680 || c.toNat = 0x202F || c.toNat = 0x205F || c.toNat = 0x3000

/-- Model of the JavaScript builtin `String.prototype.trim`. -/
def jsTrim (s : String) : String :=
  String.mk (((s.data.dropWhile isJsWs).reverse.dropWhile isJsWs).reverse)

/-- Modelled from the spec: `src/types.ts` is not part of the sources, so
the `Remedy` type is taken from the spec ("an external entity with at
minimum a human-readable `name` and a unique `identifier` (string
code)").  Only `name` and `abbreviation` are read by
`AISuggestionEngine.ts`. -/
structure Remedy where
  name : String
  abbreviation : String
deriving Repr, DecidableEq

/-- The `GoogleGenAI` SDK handle, created from the API key
(`new GoogleGenAI({ apiKey: API_KEY })`). -/
structure GoogleGenAI where
  apiKey : String
deriving Repr, DecidableEq

/-- Module-level initialization (lines 5-12 of the source): the handle
`ai` is created if and only if `process.env.API_KEY` is present,
otherwise it stays `null` for the process lifetime. -/
def initAi (apiKey : Option String) : Option GoogleGenAI :=
  apiKey.map (fun k => { apiKey := k })

/-- A JavaScript value as it appears in a `catch` clause: either an
object that is `instanceof Error` (only its `message` matters to the
source code) or any other thrown value. -/
inductive JsValue where
  | error (message : String) : JsValue
  | nonError (v : Json) : JsValue
deriving Repr

/-- Behavior of the single `ai.models.generateContent` round trip, an
input to the embedded function: the promise either resolves with a
response whose `.text` is the given string, or rejects with a thrown
value. -/
inductive NetResult where
  | ok (text : String) : NetResult
  | thrown (e : JsValue) : NetResult
deriving Repr

/-- Outcome of a call to the async function: a returned value or a
thrown value. -/
inductive JsOutcome where
  | ret (suggestions : List String) : JsOutcome
  | throw (e : JsValue) : JsOutcome
deriving Repr

/-- Message of the error thrown when no API key was configured
(line 16 of the source). -/
def configErrorMsg : String :=
  "Gemini API key is not configured. Please set VITE_API_KEY in a .env.local file and restart the server."

/-- Message of the error thrown when the try block threw an
`instanceof Error` value (line 71 of the source). -/
def serviceErrorMsg : String :=
  "Failed to get suggestions from AI. It\x27s possible the API key is invalid or the service is unavailable."

/-- Message of the error thrown when the try block threw a value that is
not an `instanceof Error` (line 73 of the source). -/
def unknownErrorMsg : String :=
  "An unknown error occurred while fetching AI suggestions."

/-- The `Type` enum of `@google/genai`, restricted to the constructors
the source uses. -/
inductive SchemaType where
  | OBJECT : SchemaType
  | ARRAY : SchemaType
  | STRING : SchemaType
deriving Repr

/-- A response schema as passed to `generateContent` (the structured
subset the source constructs). -/
inductive Schema where
  | mk (type : SchemaType) (properties : List (String × Schema))
       (items : Option Schema) (description : Option String)
       (required : List String) : Schema
deriving Repr

/-- The hardcoded `responseSchema` of the request (lines 40-53). -/
def remediesResponseSchema : Schema :=
  Schema.mk SchemaType.OBJECT
    [(("remedies"),
      Schema.mk SchemaType.ARRAY []
        (some (Schema.mk SchemaType.STRING [] none
          (some ("The abbreviation of a suggested remedy.")) []))
        (some ("An array of suggested remedy abbreviations."))
        [])]
    none none [("remedies")]

/-- One request to `ai.models.generateContent` (lines 35-54). -/
structure GenRequest where
  model : String
  contents : String
  responseMimeType : String
  responseSchema : Schema
deriving Repr

/-- The request the source sends for a given prompt: a fixed model name,
the composed prompt, and the structured-output directive. -/
def mkRequest (prompt : String) : GenRequest :=
  { model := ("gemini-2.5-flash")
    contents := prompt
    responseMimeType := ("application/json")
    responseSchema := remediesResponseSchema }

/-- Model of the JavaScript `Array.prototype.join` with separator `"\n"`, used on line 19. -/
def joinNl : List String → String
  | [] => ""
  | [s] => s
  | s :: rest => s ++ "\n" ++ joinNl rest

/-- `remedyListForPrompt` (line 19): one `- name (abbreviation)` line per
remedy. -/
def remedyListForPrompt (remedies : List Remedy) : String :=
  joinNl (remedies.map (fun r => "- " ++ r.name ++ " (" ++ r.abbreviation ++ ")"))

/-- Literal text of the prompt template before `${symptoms}`. -/
def promptPart1 : String :=
  "\n    You are an expert in homeopathy. Based on the following symptoms, suggest the most relevant remedies.\n    \n    Symptoms: \""

/-- Literal text of the prompt template between `${symptoms}` and
`${remedyListForPrompt}`. -/
def promptPart2 : String :=
  "\"\n    \n    Refer ONLY to the following list of available remedies and provide your answer as a JSON object with a single key \"remedies\" which contains an array of the remedy abbreviations. For example: \x7b\"remedies\": [\"ARN\", \"NUX-V\"]\x7d.\n    If no remedies seem appropriate, return an empty array within the JSON object. Do not include any explanation.\n\n    Available Remedies:\n    "

/-- Literal text of the prompt template after `${remedyListForPrompt}`. -/
def promptPart3 : String :=
  "\n  "

/-- The composed prompt (lines 21-31 of the source). -/
def buildPrompt (symptoms : String) (remedies : List Remedy) : String :=
  promptPart1 ++ symptoms ++ promptPart2 ++ remedyListForPrompt remedies ++ promptPart3

/-- The sentence of the prompt requiring a JSON-object answer with the
single key `"remedies"` holding an array of abbreviations. -/
def instrAnswerJson : String :=
  "provide your answer as a JSON object with a single key \"remedies\" which contains an array of the remedy abbreviations"

/-- The sentence of the prompt allowing an empty array. -/
def instrEmptyArray : String :=
  "If no remedies seem appropriate, return an empty array within the JSON object."

/-- The sentence of the prompt forbidding free-form explanation. -/
def instrNoExplanation : String :=
  "Do not include any explanation."

/-- JavaScript property lookup on an object built by `JSON.parse`: with
duplicate keys the last occurrence wins, as in the builtin. -/
def jsLookup (fields : List (String × Json)) (key : String) : Option Json :=
  match fields with
  | [] => none
  | (k, v) :: rest =>
    match jsLookup rest key with
    | some w => some w
    | none => if k = key then some v else none

/-- The guard `result && Array.isArray(result.remedies)` (line 59): the
array is exposed exactly when the parsed value is truthy, property
access yields a value, and that value is an array.  Falsy values
(`null`, `false`, numbers, strings) and truthy non-objects all fail the
guard, since property access on them never yields an array. -/
def jsGetRemedies : Json → Option (List Json)
  | Json.obj fields =>
    match jsLookup fields ("remedies") with
    | some (Json.arr l) => some l
    | _ => none
  | _ => none

/-- Embedding of `getAiSuggestions` (lines 14-75 of the source).
`ai` is the module-level handle, `net` the behavior of the network
round trip.  The returned list records every request passed to
`ai.models.generateContent`, in order. -/
def getAiSuggestions (ai : Option GoogleGenAI) (symptoms : String)
    (remedies : List Remedy) (net : NetResult) : JsOutcome × List GenRequest :=
  match ai with
  | none =>
    -- line 15: if (!ai) throw new Error(...)
    (JsOutcome.throw (JsValue.error configErrorMsg), [])
  | some _ =>
    let prompt := buildPrompt symptoms remedies
    -- lines 35-54: the one call to ai.models.generateContent
    let requests := [mkRequest prompt]
    match net with
    | NetResult.thrown e =>
      -- lines 68-74: catch (error)
      match e with
      | JsValue.error _ => (JsOutcome.throw (JsValue.error serviceErrorMsg), requests)
      | JsValue.nonError _ => (JsOutcome.throw (JsValue.error unknownErrorMsg), requests)
    | NetResult.ok text =>
      -- line 56: const jsonString = response.text.trim()
      let jsonString := jsTrim text
      match jsonParse jsonString with
      | none =>
        -- JSON.parse throws a SyntaxError, an instanceof Error value,
        -- caught by the same catch clause (lines 68-72)
        (JsOutcome.throw (JsValue.error serviceErrorMsg), requests)
      | some result =>
        match jsGetRemedies result with
        | some arr =>
          -- lines 60-63: filter by the typeof string test and Set.has
          let validAbbreviations := remedies.map (fun r => r.abbreviation)
          (JsOutcome.ret (arr.filterMap (fun abbr =>
            match abbr with
            | Json.str s => if validAbbreviations.contains s then some s else none
            | _ => none)), requests)
        | none =>
          -- line 66: return []
          (JsOutcome.ret [], requests)

/-- Spec-side description of the post-processing step, written from the
spec text: the sub-sequence of the elements of the array that are strings
present in the identifier set of the candidates passed to that call, in
original order. -/
def specSuggestedIdentifiers (abbrs : List String) : List Json → List String
  | [] => []
  | Json.str s :: rest =>
    if s ∈ abbrs then s :: specSuggestedIdentifiers abbrs rest
    else specSuggestedIdentifiers abbrs rest
  | _ :: rest => specSuggestedIdentifiers abbrs rest

/-- The source filter agrees with the spec-side sub-sequence
description. -/
theorem filterMap_eq_specSuggestedIdentifiers (abbrs : List String) (arr : List Json) :
    arr.filterMap (fun abbr =>
      match abbr with
      | Json.str s => if abbrs.contains s then some s else none
      | _ => none) = specSuggestedIdentifiers abbrs arr := by
  have hfun : (fun abbr =>
      match abbr with
      | Json.str s => if abbrs.contains s then some s else none
      | _ => none) = (fun abbr =>
      match abbr with
      | Json.str s => if s ∈ abbrs then some s else none
      | _ => none) := by
    funext abbr
    cases abbr <;> simp
  rw [hfun]
  induction arr with
  | nil => rfl
  | cons hd tl ih =>
    cases hd with
    | str s =>
      by_cases h : s ∈ abbrs <;>
        simp [List.filterMap_cons, specSuggestedIdentifiers, h, ih]
    | null => simpa [List.filterMap_cons, specSuggestedIdentifiers] using ih
    | bool b => simpa [List.filterMap_cons, specSuggestedIdentifiers] using ih
    | num raw => simpa [List.filterMap_cons, specSuggestedIdentifiers] using ih
    | arr l => simpa [List.filterMap_cons, specSuggestedIdentifiers] using ih
    | obj f => simpa [List.filterMap_cons, specSuggestedIdentifiers] using ih

/-- Whenever the handle is configured, the function issues exactly the
one request built from the prompt, whatever the network does. -/
theorem requests_eq (c : GoogleGenAI) (symptoms : String) (remedies : List Remedy)
    (net : NetResult) :
    (getAiSuggestions (some c) symptoms remedies net).2
      = [mkRequest (buildPrompt symptoms remedies)] := by
  cases net with
  | thrown e => cases e <;> rfl
  | ok text =>
    rcases hj : jsonParse (jsTrim text) with _ | j
    · simp [getAiSuggestions, hj]
    · rcases hr : jsGetRemedies j with _ | arr <;> simp [getAiSuggestions, hj, hr]

/-- Result of a call whose response parses to an object carrying an
array under `"remedies"`. -/
theorem ok_response_result (c : GoogleGenAI) (symptoms text : String)
    (remedies : List Remedy) (fields : List (String × Json)) (arr : List Json)
    (hparse : jsonParse (jsTrim text) = some (Json.obj fields))
    (hkey : jsLookup fields ("remedies") = some (Json.arr arr)) :
    getAiSuggestions (some c) symptoms remedies (NetResult.ok text)
      = (JsOutcome.ret (specSuggestedIdentifiers (remedies.map (fun r => r.abbreviation)) arr),
         [mkRequest (buildPrompt symptoms remedies)]) := by
  have hg : jsGetRemedies (Json.obj fields) = some arr := by
    simp [jsGetRemedies, hkey]
  simp only [getAiSuggestions, hparse, hg]
  rw [filterMap_eq_specSuggestedIdentifiers]

/-- Any member of a list is surrounded by the rest of the joined
output. -/
theorem joinNl_decomp (l : List String) (x : String) (hx : x ∈ l) :
    ∃ p q, joinNl l = p ++ x ++ q := by
  induction l with
  | nil => cases hx
  | cons hd tl ih =>
    rcases List.mem_cons.mp hx with rfl | hmem
    · cases tl with
      | nil => exact ⟨"", "", by simp [joinNl, String.empty_append, String.append_empty]⟩
      | cons z zs =>
        exact ⟨"", "\n" ++ joinNl (z :: zs), by
          simp [joinNl, String.empty_append, String.append_assoc]⟩
    · obtain ⟨p, q, hpq⟩ := ih hmem
      cases tl with
      | nil => cases hmem
      | cons z zs =>
        exact ⟨hd ++ "\n" ++ p, q, by
          simp [joinNl, hpq, String.append_assoc]⟩

/-- The filtered result keeps every occurrence of a valid identifier:
its multiplicity equals the multiplicity of the corresponding string
element in the response array. -/
theorem specSuggestedIdentifiers_count (abbrs : List String) (arr : List Json)
    (s : String) (hs : s ∈ abbrs) :
    (specSuggestedIdentifiers abbrs arr).count s
      = arr.countP (fun x =>
          match x with
          | Json.str t => t == s
          | _ => false) := by
  induction arr with
  | nil => simp [specSuggestedIdentifiers]
  | cons hd tl ih =>
    cases hd with
    | str t =>
      by_cases hts : t = s
      · subst hts
        simp [specSuggestedIdentifiers, hs, List.countP_cons, List.count_cons, ih]
      · by_cases ht : t ∈ abbrs
        · simp [specSuggestedIdentifiers, ht, List.countP_cons, List.count_cons, hts, ih]
        · simp [specSuggestedIdentifiers, ht, List.countP_cons, hts, ih]
    | null => simpa [specSuggestedIdentifiers, List.countP_cons] using ih
    | bool b => simpa [specSuggestedIdentifiers, List.countP_cons] using ih
    | num raw => simpa [specSuggestedIdentifiers, List.countP_cons] using ih
    | arr l => simpa [specSuggestedIdentifiers, List.countP_cons] using ih
    | obj f => simpa [specSuggestedIdentifiers, List.countP_cons] using ih

/-- C2: if no service credential was supplied at process initialization,
`getAiSuggestions` fails with the configuration error ("Gemini API key
is not configured ...") and performs zero network calls, for any
symptoms string, candidate list and network behavior. -/
theorem getAiSuggestions_no_credential (symptoms : String) (remedies : List Remedy)
    (net : NetResult) :
    getAiSuggestions (initAi none) symptoms remedies net
      = (JsOutcome.throw (JsValue.error configErrorMsg), []) := rfl

/-- C7: for every invocation that passes the configuration check,
exactly one outbound call to the external service is made — the request
list is the singleton holding the composed request, whatever the
network outcome. -/
theorem getAiSuggestions_exactly_one_call (c : GoogleGenAI) (symptoms : String)
    (remedies : List Remedy) (net : NetResult) :
    (getAiSuggestions (some c) symptoms remedies net).2
      = [mkRequest (buildPrompt symptoms remedies)] :=
  requests_eq c symptoms remedies net

/-- C3: whenever the response text parses to a JSON object whose
`"remedies"` key holds an array, the call returns exactly the
sub-sequence of the elements of the array that are strings belonging to the
abbreviation set of the candidates of this call, in the original
order of the array (and in particular an empty array yields an empty
result, with no error thrown). -/
theorem getAiSuggestions_filters_response (c : GoogleGenAI) (symptoms text : String)
    (remedies : List Remedy) (fields : List (String × Json)) (arr : List Json)
    (hparse : jsonParse (jsTrim text) = some (Json.obj fields))
    (hkey : jsLookup fields ("remedies") = some (Json.arr arr)) :
    getAiSuggestions (some c) symptoms remedies (NetResult.ok text)
      = (JsOutcome.ret (specSuggestedIdentifiers (remedies.map (fun r => r.abbreviation)) arr),
         [mkRequest (buildPrompt symptoms remedies)]) :=
  ok_response_result c symptoms text remedies fields arr hparse hkey

/-- Witness for C3, on the example given in the spec: candidates
`ARN`, `NUX-V`, `BELL` and response array `["ARN", "FOO", 42, "BELL"]`
give result `["ARN", "BELL"]`. -/
theorem getAiSuggestions_filters_response_witness :
    jsonParse (jsTrim ("\x7b\"remedies\": [\"ARN\", \"FOO\", 42, \"BELL\"]\x7d"))
      = some (Json.obj [(("remedies"),
          Json.arr [Json.str ("ARN"), Json.str ("FOO"), Json.num ("42"), Json.str ("BELL")])]) ∧
    jsLookup [(("remedies"),
          Json.arr [Json.str ("ARN"), Json.str ("FOO"), Json.num ("42"), Json.str ("BELL")])] ("remedies")
      = some (Json.arr [Json.str ("ARN"), Json.str ("FOO"), Json.num ("42"), Json.str ("BELL")]) ∧
    getAiSuggestions (some ⟨("k")⟩) ("fever")
        [⟨("Arnica"), ("ARN")⟩, ⟨("Nux vomica"), ("NUX-V")⟩, ⟨("Belladonna"), ("BELL")⟩]
        (NetResult.ok ("\x7b\"remedies\": [\"ARN\", \"FOO\", 42, \"BELL\"]\x7d"))
      = (JsOutcome.ret [("ARN"), ("BELL")],
         [mkRequest (buildPrompt ("fever")
           [⟨("Arnica"), ("ARN")⟩, ⟨("Nux vomica"), ("NUX-V")⟩, ⟨("Belladonna"), ("BELL")⟩])]) :=
  ⟨rfl, rfl,
    (getAiSuggestions_filters_response ⟨("k")⟩ ("fever")
        ("\x7b\"remedies\": [\"ARN\", \"FOO\", 42, \"BELL\"]\x7d")
        [⟨("Arnica"), ("ARN")⟩, ⟨("Nux vomica"), ("NUX-V")⟩, ⟨("Belladonna"), ("BELL")⟩]
        [(("remedies"),
          Json.arr [Json.str ("ARN"), Json.str ("FOO"), Json.num ("42"), Json.str ("BELL")])]
        [Json.str ("ARN"), Json.str ("FOO"), Json.num ("42"), Json.str ("BELL")]
        rfl rfl).trans (by rfl)⟩

/-- C4: whenever the response text parses as JSON but the parsed value
is not an object carrying an array under the `"remedies"` key, the call
returns an empty list and throws no error. -/
theorem getAiSuggestions_shape_violation (c : GoogleGenAI) (symptoms text : String)
    (remedies : List Remedy) (j : Json)
    (hparse : jsonParse (jsTrim text) = some j)
    (hshape : ∀ fields arr, j = Json.obj fields →
      jsLookup fields ("remedies") ≠ some (Json.arr arr)) :
    getAiSuggestions (some c) symptoms remedies (NetResult.ok text)
      = (JsOutcome.ret [], [mkRequest (buildPrompt symptoms remedies)]) := by
  have hg : jsGetRemedies j = none := by
    cases j with
    | obj fields =>
      rcases hjl : jsLookup fields ("remedies") with _ | v
      · simp [jsGetRemedies, hjl]
      · cases v with
        | arr l => exact absurd hjl (hshape fields l rfl)
        | null => simp [jsGetRemedies, hjl]
        | bool b => simp [jsGetRemedies, hjl]
        | num raw => simp [jsGetRemedies, hjl]
        | str s => simp [jsGetRemedies, hjl]
        | obj f => simp [jsGetRemedies, hjl]
    | null => rfl
    | bool b => rfl
    | num raw => rfl
    | str s => rfl
    | arr l => rfl
  simp only [getAiSuggestions, hparse, hg]

/-- Witness for C4, on the example given in the spec, the object mapping
the key remedies to the string ARN. -/
theorem getAiSuggestions_shape_violation_witness :
    jsonParse (jsTrim ("\x7b\"remedies\": \"ARN\"\x7d"))
      = some (Json.obj [(("remedies"), Json.str ("ARN"))]) ∧
    getAiSuggestions (some ⟨("k")⟩) ("fever") [⟨("Arnica"), ("ARN")⟩]
        (NetResult.ok ("\x7b\"remedies\": \"ARN\"\x7d"))
      = (JsOutcome.ret [], [mkRequest (buildPrompt ("fever") [⟨("Arnica"), ("ARN")⟩])]) :=
  ⟨rfl,
    getAiSuggestions_shape_violation ⟨("k")⟩ ("fever") ("\x7b\"remedies\": \"ARN\"\x7d")
      [⟨("Arnica"), ("ARN")⟩] (Json.obj [(("remedies"), Json.str ("ARN"))]) rfl
      (by
        intro fields arr hobj hl
        cases hobj
        simp [jsLookup] at hl)⟩

/-- C5: whenever the network/service invocation rejects with any thrown
value, the call surfaces the failure as a thrown wrapped `Error` whose
message is one of the two fixed human-readable summaries — never the
raw underlying value, and never a silently returned empty result. -/
theorem getAiSuggestions_wraps_net_errors (c : GoogleGenAI) (symptoms : String)
    (remedies : List Remedy) (e : JsValue) :
    ∃ msg, getAiSuggestions (some c) symptoms remedies (NetResult.thrown e)
        = (JsOutcome.throw (JsValue.error msg), [mkRequest (buildPrompt symptoms remedies)]) ∧
      (msg = serviceErrorMsg ∨ msg = unknownErrorMsg) := by
  cases e with
  | error m => exact ⟨serviceErrorMsg, rfl, Or.inl rfl⟩
  | nonError v => exact ⟨unknownErrorMsg, rfl, Or.inr rfl⟩

/-- C6: the one request of a configured call carries the composed
prompt; that prompt embeds the symptoms of the caller verbatim, embeds one
`- name (abbreviation)` line for every candidate, and contains the
sentences requiring a JSON object with the single key `"remedies"`
holding an array of abbreviations, allowing an empty array, and
forbidding explanation. -/
theorem getAiSuggestions_prompt (c : GoogleGenAI) (symptoms : String)
    (remedies : List Remedy) (net : NetResult) :
    (getAiSuggestions (some c) symptoms remedies net).2
        = [mkRequest (buildPrompt symptoms remedies)] ∧
    (∃ p q, buildPrompt symptoms remedies = p ++ symptoms ++ q) ∧
    (∀ r ∈ remedies, ∃ p q, buildPrompt symptoms remedies
        = p ++ ("- " ++ r.name ++ " (" ++ r.abbreviation ++ ")") ++ q) ∧
    (∃ p q, buildPrompt symptoms remedies = p ++ instrAnswerJson ++ q) ∧
    (∃ p q, buildPrompt symptoms remedies = p ++ instrEmptyArray ++ q) ∧
    (∃ p q, buildPrompt symptoms remedies = p ++ instrNoExplanation ++ q) := by
  refine ⟨requests_eq c symptoms remedies net,
    ⟨promptPart1, promptPart2 ++ remedyListForPrompt remedies ++ promptPart3, by
      simp [buildPrompt, String.append_assoc]⟩, ?_, ?_, ?_, ?_⟩
  · intro r hr
    obtain ⟨p, q, hpq⟩ := joinNl_decomp
      (remedies.map (fun r => "- " ++ r.name ++ " (" ++ r.abbreviation ++ ")"))
      ("- " ++ r.name ++ " (" ++ r.abbreviation ++ ")")
      (List.mem_map_of_mem (fun r => "- " ++ r.name ++ " (" ++ r.abbreviation ++ ")") hr)
    exact ⟨promptPart1 ++ symptoms ++ promptPart2 ++ p, q ++ promptPart3, by
      simp only [buildPrompt, remedyListForPrompt]
      rw [hpq]
      simp [String.append_assoc]⟩
  · have h2 : promptPart2
        = "\"\n    \n    Refer ONLY to the following list of available remedies and "
          ++ instrAnswerJson
          ++ ". For example: \x7b\"remedies\": [\"ARN\", \"NUX-V\"]\x7d.\n    If no remedies seem appropriate, return an empty array within the JSON object. Do not include any explanation.\n\n    Available Remedies:\n    " := rfl
    exact ⟨promptPart1 ++ symptoms
        ++ "\"\n    \n    Refer ONLY to the following list of available remedies and ",
      ". For example: \x7b\"remedies\": [\"ARN\", \"NUX-V\"]\x7d.\n    If no remedies seem appropriate, return an empty array within the JSON object. Do not include any explanation.\n\n    Available Remedies:\n    "
        ++ remedyListForPrompt remedies ++ promptPart3, by
      simp only [buildPrompt]
      rw [h2]
      simp [String.append_assoc]⟩
  · have h2 : promptPart2
        = "\"\n    \n    Refer ONLY to the following list of available remedies and provide your answer as a JSON object with a single key \"remedies\" which contains an array of the remedy abbreviations. For example: \x7b\"remedies\": [\"ARN\", \"NUX-V\"]\x7d.\n    "
          ++ instrEmptyArray
          ++ " Do not include any explanation.\n\n    Available Remedies:\n    " := rfl
    exact ⟨promptPart1 ++ symptoms
        ++ "\"\n    \n    Refer ONLY to the following list of available remedies and provide your answer as a JSON object with a single key \"remedies\" which contains an array of the remedy abbreviations. For example: \x7b\"remedies\": [\"ARN\", \"NUX-V\"]\x7d.\n    ",
      " Do not include any explanation.\n\n    Available Remedies:\n    "
        ++ remedyListForPrompt remedies ++ promptPart3, by
      simp only [buildPrompt]
      rw [h2]
      simp [String.append_assoc]⟩
  · have h2 : promptPart2
        = "\"\n    \n    Refer ONLY to the following list of available remedies and provide your answer as a JSON object with a single key \"remedies\" which contains an array of the remedy abbreviations. For example: \x7b\"remedies\": [\"ARN\", \"NUX-V\"]\x7d.\n    If no remedies seem appropriate, return an empty array within the JSON object. "
          ++ instrNoExplanation
          ++ "\n\n    Available Remedies:\n    " := rfl
    exact ⟨promptPart1 ++ symptoms
        ++ "\"\n    \n    Refer ONLY to the following list of available remedies and provide your answer as a JSON object with a single key \"remedies\" which contains an array of the remedy abbreviations. For example: \x7b\"remedies\": [\"ARN\", \"NUX-V\"]\x7d.\n    If no remedies seem appropriate, return an empty array within the JSON object. ",
      "\n\n    Available Remedies:\n    "
        ++ remedyListForPrompt remedies ++ promptPart3, by
      simp only [buildPrompt]
      rw [h2]
      simp [String.append_assoc]⟩

/-- Witness for C6: for one concrete candidate, the one line built for
it occurs in the prompt, and the one issued request carries the
prompt. -/
theorem getAiSuggestions_prompt_witness :
    (getAiSuggestions (some ⟨("k")⟩) ("fever") [⟨("Arnica"), ("ARN")⟩] (NetResult.ok ("x"))).2
        = [mkRequest (buildPrompt ("fever") [⟨("Arnica"), ("ARN")⟩])] ∧
    (∃ p q, buildPrompt ("fever") [⟨("Arnica"), ("ARN")⟩]
        = p ++ ("- " ++ ("Arnica") ++ " (" ++ ("ARN") ++ ")") ++ q) :=
  ⟨(getAiSuggestions_prompt ⟨("k")⟩ ("fever") [⟨("Arnica"), ("ARN")⟩] (NetResult.ok ("x"))).1,
   (getAiSuggestions_prompt ⟨("k")⟩ ("fever") [⟨("Arnica"), ("ARN")⟩] (NetResult.ok ("x"))).2.2.1
     ⟨("Arnica"), ("ARN")⟩ (by simp)⟩

/-- C8: with an empty candidate list, any value the call returns (as
opposed to throws) is the empty list, whatever the network produced:
the valid-identifier set is empty, so every array element is filtered
out. -/
theorem getAiSuggestions_empty_candidates (c : GoogleGenAI) (symptoms : String)
    (net : NetResult) (l : List String) (reqs : List GenRequest)
    (h : getAiSuggestions (some c) symptoms [] net = (JsOutcome.ret l, reqs)) :
    l = [] := by
  cases net with
  | thrown e => cases e <;> simp [getAiSuggestions] at h
  | ok text =>
    rcases hj : jsonParse (jsTrim text) with _ | j
    · simp [getAiSuggestions, hj] at h
    · rcases hr : jsGetRemedies j with _ | arr
      · simp only [getAiSuggestions, hj, hr] at h
        injection h with h1 h2
        injection h1 with h3
        exact h3.symm
      · simp only [getAiSuggestions, hj, hr] at h
        injection h with h1 h2
        injection h1 with h3
        rw [← h3]
        refine List.filterMap_eq_nil_iff.mpr ?_
        intro a ha
        cases a <;> rfl

/-- Witness for C8: a response naming `ARN` still yields `[]` when the
candidate list is empty. -/
theorem getAiSuggestions_empty_candidates_witness :
    getAiSuggestions (some ⟨("k")⟩) ("fever") [] (NetResult.ok ("\x7b\"remedies\": [\"ARN\"]\x7d"))
      = (JsOutcome.ret [], [mkRequest (buildPrompt ("fever") [])]) ∧
    ([] : List String) = [] :=
  ⟨rfl, getAiSuggestions_empty_candidates ⟨("k")⟩ ("fever")
    (NetResult.ok ("\x7b\"remedies\": [\"ARN\"]\x7d")) [] [mkRequest (buildPrompt ("fever") [])] rfl⟩

/-- C9: the result is not deduplicated — for a response array carrying
a valid identifier several times, the multiplicity of that identifier
in the result equals its multiplicity among the string elements of the
array. -/
theorem getAiSuggestions_no_dedup (c : GoogleGenAI) (symptoms text : String)
    (remedies : List Remedy) (fields : List (String × Json)) (arr : List Json) (s : String)
    (hparse : jsonParse (jsTrim text) = some (Json.obj fields))
    (hkey : jsLookup fields ("remedies") = some (Json.arr arr))
    (hs : s ∈ remedies.map (fun r => r.abbreviation)) :
    ∃ l, getAiSuggestions (some c) symptoms remedies (NetResult.ok text)
        = (JsOutcome.ret l, [mkRequest (buildPrompt symptoms remedies)]) ∧
      l.count s = arr.countP (fun x =>
        match x with
        | Json.str t => t == s
        | _ => false) :=
  ⟨specSuggestedIdentifiers (remedies.map (fun r => r.abbreviation)) arr,
   ok_response_result c symptoms text remedies fields arr hparse hkey,
   specSuggestedIdentifiers_count (remedies.map (fun r => r.abbreviation)) arr s hs⟩

/-- Witness for C9: the response `["ARN", "ARN"]` yields a result in
which `ARN` occurs twice. -/
theorem getAiSuggestions_no_dedup_witness :
    jsonParse (jsTrim ("\x7b\"remedies\": [\"ARN\", \"ARN\"]\x7d"))
      = some (Json.obj [(("remedies"), Json.arr [Json.str ("ARN"), Json.str ("ARN")])]) ∧
    jsLookup [(("remedies"), Json.arr [Json.str ("ARN"), Json.str ("ARN")])] ("remedies")
      = some (Json.arr [Json.str ("ARN"), Json.str ("ARN")]) ∧
    ("ARN") ∈ ([⟨("Arnica"), ("ARN")⟩] : List Remedy).map (fun r => r.abbreviation) ∧
    (∃ l, getAiSuggestions (some ⟨("k")⟩) ("fever") [⟨("Arnica"), ("ARN")⟩]
          (NetResult.ok ("\x7b\"remedies\": [\"ARN\", \"ARN\"]\x7d"))
        = (JsOutcome.ret l, [mkRequest (buildPrompt ("fever") [⟨("Arnica"), ("ARN")⟩])]) ∧
      l.count ("ARN") = ([Json.str ("ARN"), Json.str ("ARN")] : List Json).countP (fun x =>
        match x with
        | Json.str t => t == ("ARN")
        | _ => false)) :=
  ⟨rfl, rfl, by decide,
   getAiSuggestions_no_dedup ⟨("k")⟩ ("fever") ("\x7b\"remedies\": [\"ARN\", \"ARN\"]\x7d")
     [⟨("Arnica"), ("ARN")⟩]
     [(("remedies"), Json.arr [Json.str ("ARN"), Json.str ("ARN")])]
     [Json.str ("ARN"), Json.str ("ARN")] ("ARN") rfl rfl (by decide)⟩

/-- C10: every failure the function surfaces is a freshly constructed
`Error` with one of three fixed messages; a caught value that is not an
`Error` instance is replaced by the distinct unknown-error message, and
the caught value is never re-thrown raw. -/
theorem getAiSuggestions_error_messages :
    (∀ ai symptoms remedies net e reqs,
        getAiSuggestions ai symptoms remedies net = (JsOutcome.throw e, reqs) →
        e = JsValue.error configErrorMsg ∨ e = JsValue.error serviceErrorMsg ∨
          e = JsValue.error unknownErrorMsg) ∧
    (∀ c symptoms remedies v,
        getAiSuggestions (some c) symptoms remedies (NetResult.thrown (JsValue.nonError v))
          = (JsOutcome.throw (JsValue.error unknownErrorMsg),
             [mkRequest (buildPrompt symptoms remedies)])) ∧
    unknownErrorMsg ≠ serviceErrorMsg := by
  refine ⟨?_, fun c symptoms remedies v => rfl, by decide⟩
  intro ai symptoms remedies net e reqs h
  cases ai with
  | none =>
    simp [getAiSuggestions] at h
    exact Or.inl h.1.symm
  | some c =>
    cases net with
    | thrown e' =>
      cases e' with
      | error m =>
        simp [getAiSuggestions] at h
        exact Or.inr (Or.inl h.1.symm)
      | nonError v =>
        simp [getAiSuggestions] at h
        exact Or.inr (Or.inr h.1.symm)
    | ok text =>
      rcases hj : jsonParse (jsTrim text) with _ | j
      · simp [getAiSuggestions, hj] at h
        exact Or.inr (Or.inl h.1.symm)
      · rcases hr : jsGetRemedies j with _ | arr <;> simp [getAiSuggestions, hj, hr] at h

/-- Witness for C10: the unknown-error path at a concrete non-Error
thrown value, checked against the fixed message set. -/
theorem getAiSuggestions_error_messages_witness :
    getAiSuggestions (some ⟨("k")⟩) ("s") [] (NetResult.thrown (JsValue.nonError Json.null))
      = (JsOutcome.throw (JsValue.error unknownErrorMsg), [mkRequest (buildPrompt ("s") [])]) ∧
    (JsValue.error unknownErrorMsg = JsValue.error configErrorMsg ∨
     JsValue.error unknownErrorMsg = JsValue.error serviceErrorMsg ∨
     JsValue.error unknownErrorMsg = JsValue.error unknownErrorMsg) :=
  ⟨rfl, getAiSuggestions_error_messages.1 (some ⟨("k")⟩) ("s") []
    (NetResult.thrown (JsValue.nonError Json.null)) (JsValue.error unknownErrorMsg)
    [mkRequest (buildPrompt ("s") [])] rfl⟩

/-- C1 as stated is false on the code: a response whose text is not
valid JSON does not produce an empty result — `JSON.parse` throws
inside the try block and the call surfaces the generic service error. -/
theorem getAiSuggestions_invalid_json_counterexample :
    ¬ ∃ l reqs, getAiSuggestions (some ⟨("k")⟩) ("headache") [] (NetResult.ok ("not json"))
        = (JsOutcome.ret l, reqs) := by
  rintro ⟨l, reqs, h⟩
  have h1 : JsOutcome.throw (JsValue.error serviceErrorMsg) = JsOutcome.ret l :=
    congrArg Prod.fst h
  exact JsOutcome.noConfusion h1

/-- C1 (amended): when the service responds but the returned text is
not valid JSON, `JSON.parse` throws a `SyntaxError` inside the try
block, and the call surfaces it as the single generic service error —
it does not return an empty result. -/
theorem getAiSuggestions_invalid_json (c : GoogleGenAI) (symptoms text : String)
    (remedies : List Remedy)
    (hparse : jsonParse (jsTrim text) = none) :
    getAiSuggestions (some c) symptoms remedies (NetResult.ok text)
      = (JsOutcome.throw (JsValue.error serviceErrorMsg),
         [mkRequest (buildPrompt symptoms remedies)]) := by
  simp only [getAiSuggestions, hparse]

/-- Witness for the amended C1, at the example text given in the spec,
`"not json"`. -/
theorem getAiSuggestions_invalid_json_witness :
    jsonParse (jsTrim ("not json")) = none ∧
    getAiSuggestions (some ⟨("k")⟩) ("headache") [] (NetResult.ok ("not json"))
      = (JsOutcome.throw (JsValue.error serviceErrorMsg),
         [mkRequest (buildPrompt ("headache") [])]) :=
  ⟨rfl, getAiSuggestions_invalid_json ⟨("k")⟩ ("headache") ("not json") [] rfl⟩
